import Mathlib

/-!
Verification of the routing table of `src/polls/urls.py`.

The repository's own code is the URL configuration: four explicitly
declared `path(...)` patterns (`polls/<int:pk>/choices/`,
`polls/<int:pk>/choices/<int:choice_pk>/vote/`, `users/`, `login/`)
followed by the routes generated by a Django REST framework
`DefaultRouter` on which `'polls'` is registered
(`urlpatterns += router.urls`).

The embedding below represents a request path by its list of
slash-separated segments (a trailing slash contributes a final empty
segment), and each URL pattern by a list of segment patterns compiled
from the pattern's regular expression:

* a Django `<int:x>` converter is the regex `[0-9]+` converted by
  `int(...)`, i.e. exactly the segments accepted by `decimalNat?`;
* the DefaultRouter detail lookup `(?P<pk>[^/.]+)` is a non-empty
  segment containing no dot, i.e. `splitDot s = [s]` with `s ≠ ""`;
* the format-suffix patterns produced by `format_suffix_patterns`
  (`^polls\.(?P<format>[a-z0-9]+)/?$`,
  `^polls/(?P<pk>[^/.]+)\.(?P<format>[a-z0-9]+)/?$`,
  `^\.(?P<format>[a-z0-9]+)/?$`) split one segment at its unique dot,
  with the format group drawn from `[a-z0-9]+`, and accept an optional
  trailing slash.

Django resolves a URL by trying the patterns in declaration order and
dispatching to the first whose regex matches the path; the matched
view then rejects unsupported HTTP methods.  `resolveEntry` is that
ordered first-match lookup and `route` the combined routing decision.
-/

/-- Value of one extracted path parameter: Django's `<int:...>`
converter yields an integer, a plain regex group yields the raw
string. -/
inductive PVal where
  | int (n : Nat)
  | str (s : String)
deriving DecidableEq, Repr

/-- A named path parameter as passed to the handler. -/
abbrev Param := String × PVal

/-- Split a character list at every occurrence of `c` (the separator
is consumed; `n` separators yield `n + 1` parts, so a trailing
separator yields a final empty part). -/
def splitChar (c : Char) : List Char → List (List Char)
  | [] => [[]]
  | x :: xs =>
      match splitChar c xs with
      | [] => [[]]
      | y :: ys => if x = c then [] :: y :: ys else (x :: y) :: ys

/-- Split a string at every dot, as the regexes below carve a segment
around `\.`. -/
def splitDot (s : String) : List String :=
  (splitChar '.' s.data).map (fun l => ⟨l⟩)

/-- Django's `<int:...>` path converter: the regex `[0-9]+` followed
by Python's `int(...)`, so exactly the non-empty all-digit segments
are accepted, and leading zeros are allowed. -/
def decimalNat? (s : String) : Option Nat :=
  if s.data ≠ [] ∧ s.data.all Char.isDigit then
    some (s.data.foldl (fun n c => 10 * n + (c.toNat - 48)) 0)
  else none

/-- Is `s` drawn from `[a-z0-9]+` (the DefaultRouter format group)? -/
def isFmtStr (s : String) : Bool :=
  !s.data.isEmpty && s.data.all (fun c => c.isLower || c.isDigit)

/-- One segment of a URL pattern, compiled from the pattern's regex. -/
inductive Seg where
  /-- a literal segment (a trailing slash is the literal `""`) -/
  | lit (l : String)
  /-- Django `<int:nm>`: `[0-9]+`, converted to an integer -/
  | intParam (nm : String)
  /-- DefaultRouter lookup `(?P<nm>[^/.]+)`: non-empty, dot-free -/
  | pkParam (nm : String)
  /-- `(?P<pnm>[^/.]+)\.(?P<fnm>[a-z0-9]+)`: a detail format suffix -/
  | pkFmt (pnm fnm : String)
  /-- `l\.(?P<fnm>[a-z0-9]+)`: a list-route format suffix -/
  | litFmt (l : String) (fnm : String)
  /-- `\.(?P<fnm>[a-z0-9]+)`: the api-root format suffix -/
  | fmtOnly (fnm : String)
deriving DecidableEq, Repr

/-- Match one path segment against one segment pattern, returning the
parameters it binds. -/
def matchSeg : Seg → String → Option (List Param)
  | .lit l, s => if s = l then some [] else none
  | .intParam nm, s => (decimalNat? s).map (fun n => [(nm, .int n)])
  | .pkParam nm, s =>
      if s ≠ "" ∧ splitDot s = [s] then some [(nm, .str s)] else none
  | .pkFmt pnm fnm, s =>
      match splitDot s with
      | [p, f] => if p ≠ "" ∧ isFmtStr f then
                    some [(pnm, .str p), (fnm, .str f)]
                  else none
      | _ => none
  | .litFmt l fnm, s =>
      match splitDot s with
      | [p, f] => if p = l ∧ isFmtStr f then some [(fnm, .str f)] else none
      | _ => none
  | .fmtOnly fnm, s =>
      match splitDot s with
      | [p, f] => if p = "" ∧ isFmtStr f then some [(fnm, .str f)] else none
      | _ => none

/-- Match a whole segment list against a whole pattern, concatenating
the bound parameters in order. -/
def matchSegs : List Seg → List String → Option (List Param)
  | [], [] => some []
  | sg :: sgs, s :: ss =>
      match matchSeg sg s, matchSegs sgs ss with
      | some p, some ps => some (p ++ ps)
      | _, _ => none
  | _, _ => none

/-- The HTTP methods that appear in the routing configuration. -/
inductive Method where
  | GET | POST | PUT | PATCH | DELETE
deriving DecidableEq, Repr

/-- The handlers named by `src/polls/urls.py` (imported there from
`.apiviews`): the four explicitly wired views, the registered
`PollViewSet`, and the DefaultRouter's api-root view. -/
inductive Handler where
  | choiceList | createVote | userCreate | loginView | pollViewSet | apiRoot
deriving DecidableEq, Repr

/-- One registered URL pattern: its compiled segment patterns, whether
its regex ends in `/?` (an optional trailing slash), the handler it
dispatches to, and the HTTP methods that handler accepts on it. -/
structure RouteEntry where
  segs : List Seg
  optSlash : Bool
  handler : Handler
  methods : List Method
deriving DecidableEq, Repr

/-- Match a path (as segments) against one registered pattern. -/
def matchRoute (e : RouteEntry) (ss : List String) : Option (List Param) :=
  match matchSegs e.segs ss with
  | some ps => some ps
  | none => if e.optSlash then matchSegs (e.segs ++ [.lit ""]) ss else none

/-- `path("polls/<int:pk>/choices/", ChoiceList.as_view(), name="choice_list")`.
Modelled from the spec: `ChoiceList` (defined in `apiviews.py`, which is
absent from `src/`) lists and creates the choices of a poll, so it
accepts GET and POST. -/
def choice_list : RouteEntry :=
  ⟨[.lit "polls", .intParam "pk", .lit "choices", .lit ""],
   false, .choiceList, [.GET, .POST]⟩

/-- `path("polls/<int:pk>/choices/<int:choice_pk>/vote/", CreateVote.as_view(), name="create_vote")`.
Modelled from the spec: `CreateVote` (absent from `src/`) casts a vote,
so it accepts POST only. -/
def create_vote : RouteEntry :=
  ⟨[.lit "polls", .intParam "pk", .lit "choices", .intParam "choice_pk",
    .lit "vote", .lit ""],
   false, .createVote, [.POST]⟩

/-- `path("users/", UserCreate.as_view(), name="user_create")`.
Modelled from the spec: `UserCreate` (absent from `src/`) creates a user
account, so it accepts POST only. -/
def user_create : RouteEntry :=
  ⟨[.lit "users", .lit ""], false, .userCreate, [.POST]⟩

/-- `path("login/", LoginView.as_view(), name="login")`.
Modelled from the spec: `LoginView` (absent from `src/`) authenticates,
so it accepts POST only. -/
def login : RouteEntry :=
  ⟨[.lit "login", .lit ""], false, .loginView, [.POST]⟩

/-- DefaultRouter list route `^polls/$` for the registered prefix
`'polls'`, mapping `{get: list, post: create}`.  Modelled from the
spec: `PollViewSet` (absent from `src/`) is the full-CRUD poll
resource, so every standard action exists. -/
def polls_list : RouteEntry :=
  ⟨[.lit "polls", .lit ""], false, .pollViewSet, [.GET, .POST]⟩

/-- Format-suffix variant `^polls\.(?P<format>[a-z0-9]+)/?$` of the
list route, produced by `format_suffix_patterns`. -/
def polls_list_fmt : RouteEntry :=
  ⟨[.litFmt "polls" "format"], true, .pollViewSet, [.GET, .POST]⟩

/-- DefaultRouter detail route `^polls/(?P<pk>[^/.]+)/$`, mapping
`{get: retrieve, put: update, patch: partial_update, delete: destroy}`.
The default lookup regex `[^/.]+` accepts any non-empty dot-free
segment and binds it as a string. -/
def polls_detail : RouteEntry :=
  ⟨[.lit "polls", .pkParam "pk", .lit ""],
   false, .pollViewSet, [.GET, .PUT, .PATCH, .DELETE]⟩

/-- Format-suffix variant `^polls/(?P<pk>[^/.]+)\.(?P<format>[a-z0-9]+)/?$`
of the detail route. -/
def polls_detail_fmt : RouteEntry :=
  ⟨[.lit "polls", .pkFmt "pk" "format"],
   true, .pollViewSet, [.GET, .PUT, .PATCH, .DELETE]⟩

/-- The DefaultRouter api-root view at `^$` (GET only). -/
def api_root : RouteEntry :=
  ⟨[.lit ""], false, .apiRoot, [.GET]⟩

/-- Format-suffix variant `^\.(?P<format>[a-z0-9]+)/?$` of the
api-root route. -/
def api_root_fmt : RouteEntry :=
  ⟨[.fmtOnly "format"], true, .apiRoot, [.GET]⟩

/-- The four explicitly declared patterns of `urlpatterns`, in
declaration order (`src/polls/urls.py`, lines 10-17). -/
def explicitRoutes : List RouteEntry :=
  [choice_list, create_vote, user_create, login]

/-- `router.urls` for `DefaultRouter` with `register('polls', PollViewSet)`:
list route, its format variant, detail route, its format variant, the
api root, and its format variant, in the order `get_urls` emits them. -/
def routerUrls : List RouteEntry :=
  [polls_list, polls_list_fmt, polls_detail, polls_detail_fmt,
   api_root, api_root_fmt]

/-- `urlpatterns += router.urls` (line 19): generated routes come after
the explicit ones. -/
def urlpatterns : List RouteEntry := explicitRoutes ++ routerUrls

/-- Django's URL resolution: try the patterns in declaration order and
return the first match, together with its bound parameters. -/
def resolveEntry (ss : List String) : Option (RouteEntry × List Param) :=
  urlpatterns.findSome? (fun e => (matchRoute e ss).map (fun ps => (e, ps)))

/-- The resolved handler and parameters for a path, if any pattern
matches. -/
def resolveSegs (ss : List String) : Option (Handler × List Param) :=
  (resolveEntry ss).map (fun r => (r.1.handler, r.2))

/-- A routing decision: dispatch to a handler with parameters, reject
the method on a matched path, or find no matching pattern. -/
inductive Outcome where
  | dispatch (h : Handler) (ps : List Param)
  | methodNotAllowed
  | routeNotFound
deriving DecidableEq, Repr

/-- The routing decision for one request: no matching pattern is
"not found"; a matching pattern whose view does not accept the method
is "method not allowed"; otherwise the request is dispatched. -/
def route (m : Method) (ss : List String) : Outcome :=
  match resolveEntry ss with
  | none => .routeNotFound
  | some (e, ps) => if m ∈ e.methods then .dispatch e.handler ps
                    else .methodNotAllowed

/-- Split a raw request path into its segments: Django strips the
leading slash and matches the remainder; splitting at every further
slash renders a trailing slash as a final empty segment. -/
def pathSegs (p : String) : List String :=
  (splitChar '/' (match p.data with
                  | '/' :: rest => rest
                  | cs => cs)).map (fun l => ⟨l⟩)

/-- The routing decision for a raw request path. -/
def routePath (m : Method) (p : String) : Outcome :=
  route m (pathSegs p)

example : pathSegs "/polls/7/choices/" = ["polls", "7", "choices", ""] := by decide
example : routePath .GET "/polls/7/choices/" =
    .dispatch .choiceList [("pk", .int 7)] := by decide
example : routePath .POST "/polls/3/choices/5/vote/" =
    .dispatch .createVote [("pk", .int 3), ("choice_pk", .int 5)] := by decide
example : routePath .GET "/polls/abc/" =
    .dispatch .pollViewSet [("pk", .str "abc")] := by decide
example : routePath .POST "/polls/9/" = .methodNotAllowed := by decide
example : routePath .DELETE "/polls/9/" =
    .dispatch .pollViewSet [("pk", .str "9")] := by decide
example : routePath .GET "/" = .dispatch .apiRoot [] := by decide
example : routePath .GET "/polls.json" =
    .dispatch .pollViewSet [("format", .str "json")] := by decide
example : routePath .GET "/polls/4.json" =
    .dispatch .pollViewSet [("pk", .str "4"), ("format", .str "json")] := by decide
example : routePath .GET "/nope/" = .routeNotFound := by decide
example : routePath .GET "/polls/7/choices" = .routeNotFound := by decide

/-- The names of the integer-typed placeholders of a pattern. -/
def intNames (e : RouteEntry) : List String :=
  e.segs.filterMap (fun sg => match sg with
    | .intParam nm => some nm
    | _ => none)

/-- One routed request: an HTTP method and a raw path. -/
structure Request where
  method : Method
  path : String

/-- Route a batch of requests one after the other; the router keeps no
state between them. -/
def processAll (reqs : List Request) : List Outcome :=
  reqs.map (fun r => routePath r.method r.path)

/-! ### Inversion lemmas for the matchers -/

theorem matchSegs_nil_iff (ss : List String) (ps : List Param) :
    matchSegs [] ss = some ps ↔ ss = [] ∧ ps = [] := by
  cases ss <;> simp [matchSegs, eq_comm]

theorem matchSegs_cons_iff (sg : Seg) (sgs : List Seg) (ss : List String)
    (ps : List Param) :
    matchSegs (sg :: sgs) ss = some ps ↔
      ∃ s ss' p ps', ss = s :: ss' ∧ matchSeg sg s = some p ∧
        matchSegs sgs ss' = some ps' ∧ ps = p ++ ps' := by
  cases ss with
  | nil => simp [matchSegs]
  | cons s ss' =>
      constructor
      · intro h
        simp only [matchSegs] at h
        cases h1 : matchSeg sg s <;> rw [h1] at h
        · exact absurd h (by simp)
        cases h2 : matchSegs sgs ss' <;> rw [h2] at h
        · exact absurd h (by simp)
        exact ⟨s, ss', _, _, rfl, h1, h2, (Option.some.inj h).symm⟩
      · rintro ⟨s1, ss1, p, ps', heq, h1, h2, rfl⟩
        injection heq with h3 h4
        subst h3; subst h4
        simp [matchSegs, h1, h2]

theorem matchSeg_lit_iff (l s : String) (p : List Param) :
    matchSeg (.lit l) s = some p ↔ s = l ∧ p = [] := by
  simp only [matchSeg]
  split <;> simp_all [eq_comm]

theorem matchSeg_int_iff (nm s : String) (p : List Param) :
    matchSeg (.intParam nm) s = some p ↔
      ∃ n, decimalNat? s = some n ∧ p = [(nm, .int n)] := by
  simp only [matchSeg, Option.map_eq_some']
  constructor
  · rintro ⟨n, hn, rfl⟩; exact ⟨n, hn, rfl⟩
  · rintro ⟨n, hn, rfl⟩; exact ⟨n, hn, rfl⟩

theorem matchSeg_pk_iff (nm s : String) (p : List Param) :
    matchSeg (.pkParam nm) s = some p ↔
      s ≠ "" ∧ splitDot s = [s] ∧ p = [(nm, .str s)] := by
  simp only [matchSeg]
  split <;> simp_all [eq_comm]

theorem matchSeg_pkFmt_iff (pnm fnm s : String) (p : List Param) :
    matchSeg (.pkFmt pnm fnm) s = some p ↔
      ∃ a f, splitDot s = [a, f] ∧ a ≠ "" ∧ isFmtStr f = true ∧
        p = [(pnm, .str a), (fnm, .str f)] := by
  simp only [matchSeg]
  split
  · rename_i a f heq
    constructor
    · intro h
      split at h
      · rename_i hc
        exact ⟨a, f, heq, hc.1, hc.2, by simpa [eq_comm] using h⟩
      · simp at h
    · rintro ⟨a', f', heq', hne, hf, rfl⟩
      rw [heq] at heq'
      obtain ⟨rfl, rfl⟩ : a = a' ∧ f = f' := by simpa using heq'
      simp [hne, hf]
  · rename_i hshape
    constructor
    · intro h; simp at h
    · rintro ⟨a', f', heq', -, -, rfl⟩
      exact absurd rfl (heq' ▸ hshape a' f')

theorem matchSeg_litFmt_iff (l fnm s : String) (p : List Param) :
    matchSeg (.litFmt l fnm) s = some p ↔
      ∃ f, splitDot s = [l, f] ∧ isFmtStr f = true ∧
        p = [(fnm, .str f)] := by
  simp only [matchSeg]
  split
  · rename_i a f heq
    constructor
    · intro h
      split at h
      · rename_i hc
        exact ⟨f, hc.1 ▸ heq, hc.2, by simpa [eq_comm] using h⟩
      · simp at h
    · rintro ⟨f', heq', hf, rfl⟩
      rw [heq] at heq'
      obtain ⟨rfl, rfl⟩ : a = l ∧ f = f' := by simpa using heq'
      simp [hf]
  · rename_i hshape
    constructor
    · intro h; simp at h
    · rintro ⟨f', heq', -, rfl⟩
      exact absurd rfl (heq' ▸ hshape l f')

theorem matchSeg_fmtOnly_iff (fnm s : String) (p : List Param) :
    matchSeg (.fmtOnly fnm) s = some p ↔
      ∃ f, splitDot s = ["", f] ∧ isFmtStr f = true ∧
        p = [(fnm, .str f)] := by
  simp only [matchSeg]
  split
  · rename_i a f heq
    constructor
    · intro h
      split at h
      · rename_i hc
        exact ⟨f, hc.1 ▸ heq, hc.2, by simpa [eq_comm] using h⟩
      · simp at h
    · rintro ⟨f', heq', hf, rfl⟩
      rw [heq] at heq'
      obtain ⟨rfl, rfl⟩ : a = "" ∧ f = f' := by simpa using heq'
      simp [hf]
  · rename_i hshape
    constructor
    · intro h; simp at h
    · rintro ⟨f', heq', -, rfl⟩
      exact absurd rfl (heq' ▸ hshape "" f')

theorem matchSegs_length (sgs : List Seg) (ss : List String)
    (ps : List Param) (h : matchSegs sgs ss = some ps) :
    sgs.length = ss.length := by
  induction sgs generalizing ss ps with
  | nil => obtain ⟨rfl, -⟩ := (matchSegs_nil_iff ss ps).mp h; rfl
  | cons sg sgs ih =>
      obtain ⟨s, ss', p, ps', rfl, -, h2, -⟩ := (matchSegs_cons_iff _ _ _ _).mp h
      simpa using ih ss' ps' h2

theorem matchRoute_eq_of_optSlash_false (e : RouteEntry) (ss : List String)
    (h : e.optSlash = false) : matchRoute e ss = matchSegs e.segs ss := by
  unfold matchRoute
  cases hb : matchSegs e.segs ss <;> simp [h]

theorem matchRoute_cases (e : RouteEntry) (ss : List String) (ps : List Param)
    (h : matchRoute e ss = some ps) :
    matchSegs e.segs ss = some ps ∨
      matchSegs (e.segs ++ [.lit ""]) ss = some ps := by
  unfold matchRoute at h
  cases hb : matchSegs e.segs ss with
  | some ps' =>
      rw [hb] at h
      simp only [Option.some.injEq] at h
      exact Or.inl (congrArg some h)
  | none =>
      rw [hb] at h
      cases ho : e.optSlash <;> rw [ho] at h <;> simp at h
      exact Or.inr h

/-! ### Shape of the paths accepted by each registered pattern -/

theorem match_choice_list_inv (ss : List String) (ps : List Param)
    (h : matchRoute choice_list ss = some ps) :
    ∃ s n, ss = ["polls", s, "choices", ""] ∧ decimalNat? s = some n ∧
      ps = [("pk", PVal.int n)] := by
  rw [matchRoute_eq_of_optSlash_false _ _ rfl] at h
  simp only [choice_list] at h
  rcases (matchSegs_cons_iff _ _ _ _).mp h with ⟨s1, ss1, p1, ps1, rfl, h1, r1, rfl⟩
  obtain ⟨rfl, rfl⟩ := (matchSeg_lit_iff _ _ _).mp h1
  rcases (matchSegs_cons_iff _ _ _ _).mp r1 with ⟨s2, ss2, p2, ps2, rfl, h2, r2, rfl⟩
  obtain ⟨n, hn, rfl⟩ := (matchSeg_int_iff _ _ _).mp h2
  rcases (matchSegs_cons_iff _ _ _ _).mp r2 with ⟨s3, ss3, p3, ps3, rfl, h3, r3, rfl⟩
  obtain ⟨rfl, rfl⟩ := (matchSeg_lit_iff _ _ _).mp h3
  rcases (matchSegs_cons_iff _ _ _ _).mp r3 with ⟨s4, ss4, p4, ps4, rfl, h4, r4, rfl⟩
  obtain ⟨rfl, rfl⟩ := (matchSeg_lit_iff _ _ _).mp h4
  obtain ⟨rfl, rfl⟩ := (matchSegs_nil_iff _ _).mp r4
  exact ⟨s2, n, rfl, hn, rfl⟩

theorem match_create_vote_inv (ss : List String) (ps : List Param)
    (h : matchRoute create_vote ss = some ps) :
    ∃ s t n m, ss = ["polls", s, "choices", t, "vote", ""] ∧
      decimalNat? s = some n ∧ decimalNat? t = some m ∧
      ps = [("pk", PVal.int n), ("choice_pk", PVal.int m)] := by
  rw [matchRoute_eq_of_optSlash_false _ _ rfl] at h
  simp only [create_vote] at h
  rcases (matchSegs_cons_iff _ _ _ _).mp h with ⟨s1, ss1, p1, ps1, rfl, h1, r1, rfl⟩
  obtain ⟨rfl, rfl⟩ := (matchSeg_lit_iff _ _ _).mp h1
  rcases (matchSegs_cons_iff _ _ _ _).mp r1 with ⟨s2, ss2, p2, ps2, rfl, h2, r2, rfl⟩
  obtain ⟨n, hn, rfl⟩ := (matchSeg_int_iff _ _ _).mp h2
  rcases (matchSegs_cons_iff _ _ _ _).mp r2 with ⟨s3, ss3, p3, ps3, rfl, h3, r3, rfl⟩
  obtain ⟨rfl, rfl⟩ := (matchSeg_lit_iff _ _ _).mp h3
  rcases (matchSegs_cons_iff _ _ _ _).mp r3 with ⟨s4, ss4, p4, ps4, rfl, h4, r4, rfl⟩
  obtain ⟨m, hm, rfl⟩ := (matchSeg_int_iff _ _ _).mp h4
  rcases (matchSegs_cons_iff _ _ _ _).mp r4 with ⟨s5, ss5, p5, ps5, rfl, h5, r5, rfl⟩
  obtain ⟨rfl, rfl⟩ := (matchSeg_lit_iff _ _ _).mp h5
  rcases (matchSegs_cons_iff _ _ _ _).mp r5 with ⟨s6, ss6, p6, ps6, rfl, h6, r6, rfl⟩
  obtain ⟨rfl, rfl⟩ := (matchSeg_lit_iff _ _ _).mp h6
  obtain ⟨rfl, rfl⟩ := (matchSegs_nil_iff _ _).mp r6
  exact ⟨s2, s4, n, m, rfl, hn, hm, rfl⟩

theorem match_user_create_inv (ss : List String) (ps : List Param)
    (h : matchRoute user_create ss = some ps) :
    ss = ["users", ""] ∧ ps = [] := by
  rw [matchRoute_eq_of_optSlash_false _ _ rfl] at h
  simp only [user_create] at h
  rcases (matchSegs_cons_iff _ _ _ _).mp h with ⟨s1, ss1, p1, ps1, rfl, h1, r1, rfl⟩
  obtain ⟨rfl, rfl⟩ := (matchSeg_lit_iff _ _ _).mp h1
  rcases (matchSegs_cons_iff _ _ _ _).mp r1 with ⟨s2, ss2, p2, ps2, rfl, h2, r2, rfl⟩
  obtain ⟨rfl, rfl⟩ := (matchSeg_lit_iff _ _ _).mp h2
  obtain ⟨rfl, rfl⟩ := (matchSegs_nil_iff _ _).mp r2
  exact ⟨rfl, rfl⟩

theorem match_login_inv (ss : List String) (ps : List Param)
    (h : matchRoute login ss = some ps) :
    ss = ["login", ""] ∧ ps = [] := by
  rw [matchRoute_eq_of_optSlash_false _ _ rfl] at h
  simp only [login] at h
  rcases (matchSegs_cons_iff _ _ _ _).mp h with ⟨s1, ss1, p1, ps1, rfl, h1, r1, rfl⟩
  obtain ⟨rfl, rfl⟩ := (matchSeg_lit_iff _ _ _).mp h1
  rcases (matchSegs_cons_iff _ _ _ _).mp r1 with ⟨s2, ss2, p2, ps2, rfl, h2, r2, rfl⟩
  obtain ⟨rfl, rfl⟩ := (matchSeg_lit_iff _ _ _).mp h2
  obtain ⟨rfl, rfl⟩ := (matchSegs_nil_iff _ _).mp r2
  exact ⟨rfl, rfl⟩

theorem match_polls_list_inv (ss : List String) (ps : List Param)
    (h : matchRoute polls_list ss = some ps) :
    ss = ["polls", ""] ∧ ps = [] := by
  rw [matchRoute_eq_of_optSlash_false _ _ rfl] at h
  simp only [polls_list] at h
  rcases (matchSegs_cons_iff _ _ _ _).mp h with ⟨s1, ss1, p1, ps1, rfl, h1, r1, rfl⟩
  obtain ⟨rfl, rfl⟩ := (matchSeg_lit_iff _ _ _).mp h1
  rcases (matchSegs_cons_iff _ _ _ _).mp r1 with ⟨s2, ss2, p2, ps2, rfl, h2, r2, rfl⟩
  obtain ⟨rfl, rfl⟩ := (matchSeg_lit_iff _ _ _).mp h2
  obtain ⟨rfl, rfl⟩ := (matchSegs_nil_iff _ _).mp r2
  exact ⟨rfl, rfl⟩

theorem match_api_root_inv (ss : List String) (ps : List Param)
    (h : matchRoute api_root ss = some ps) :
    ss = [""] ∧ ps = [] := by
  rw [matchRoute_eq_of_optSlash_false _ _ rfl] at h
  simp only [api_root] at h
  rcases (matchSegs_cons_iff _ _ _ _).mp h with ⟨s1, ss1, p1, ps1, rfl, h1, r1, rfl⟩
  obtain ⟨rfl, rfl⟩ := (matchSeg_lit_iff _ _ _).mp h1
  obtain ⟨rfl, rfl⟩ := (matchSegs_nil_iff _ _).mp r1
  exact ⟨rfl, rfl⟩

theorem match_polls_detail_inv (ss : List String) (ps : List Param)
    (h : matchRoute polls_detail ss = some ps) :
    ∃ s, ss = ["polls", s, ""] ∧ s ≠ "" ∧ splitDot s = [s] ∧
      ps = [("pk", PVal.str s)] := by
  rw [matchRoute_eq_of_optSlash_false _ _ rfl] at h
  simp only [polls_detail] at h
  rcases (matchSegs_cons_iff _ _ _ _).mp h with ⟨s1, ss1, p1, ps1, rfl, h1, r1, rfl⟩
  obtain ⟨rfl, rfl⟩ := (matchSeg_lit_iff _ _ _).mp h1
  rcases (matchSegs_cons_iff _ _ _ _).mp r1 with ⟨s2, ss2, p2, ps2, rfl, h2, r2, rfl⟩
  obtain ⟨hne, hsd, rfl⟩ := (matchSeg_pk_iff _ _ _).mp h2
  rcases (matchSegs_cons_iff _ _ _ _).mp r2 with ⟨s3, ss3, p3, ps3, rfl, h3, r3, rfl⟩
  obtain ⟨rfl, rfl⟩ := (matchSeg_lit_iff _ _ _).mp h3
  obtain ⟨rfl, rfl⟩ := (matchSegs_nil_iff _ _).mp r3
  exact ⟨s2, rfl, hne, hsd, rfl⟩

theorem match_polls_list_fmt_inv (ss : List String) (ps : List Param)
    (h : matchRoute polls_list_fmt ss = some ps) :
    ∃ s f, (ss = [s] ∨ ss = [s, ""]) ∧ splitDot s = ["polls", f] ∧
      isFmtStr f = true ∧ ps = [("format", PVal.str f)] := by
  rcases matchRoute_cases _ _ _ h with h' | h' <;> simp only [polls_list_fmt] at h'
  · rcases (matchSegs_cons_iff _ _ _ _).mp h' with ⟨s1, ss1, p1, ps1, rfl, h1, r1, rfl⟩
    obtain ⟨f, hsd, hf, rfl⟩ := (matchSeg_litFmt_iff _ _ _ _).mp h1
    obtain ⟨rfl, rfl⟩ := (matchSegs_nil_iff _ _).mp r1
    exact ⟨s1, f, Or.inl rfl, hsd, hf, rfl⟩
  · rcases (matchSegs_cons_iff _ _ _ _).mp h' with ⟨s1, ss1, p1, ps1, rfl, h1, r2, rfl⟩
    obtain ⟨f, hsd, hf, rfl⟩ := (matchSeg_litFmt_iff _ _ _ _).mp h1
    rcases (matchSegs_cons_iff _ _ _ _).mp r2 with ⟨s2, ss2, p2, ps2, rfl, h2, r3, rfl⟩
    obtain ⟨rfl, rfl⟩ := (matchSeg_lit_iff _ _ _).mp h2
    obtain ⟨rfl, rfl⟩ := (matchSegs_nil_iff _ _).mp r3
    exact ⟨s1, f, Or.inr rfl, hsd, hf, rfl⟩

theorem match_polls_detail_fmt_inv (ss : List String) (ps : List Param)
    (h : matchRoute polls_detail_fmt ss = some ps) :
    ∃ t a f, (ss = ["polls", t] ∨ ss = ["polls", t, ""]) ∧
      splitDot t = [a, f] ∧ a ≠ "" ∧ isFmtStr f = true ∧
      ps = [("pk", PVal.str a), ("format", PVal.str f)] := by
  rcases matchRoute_cases _ _ _ h with h' | h' <;> simp only [polls_detail_fmt] at h'
  · rcases (matchSegs_cons_iff _ _ _ _).mp h' with ⟨s1, ss1, p1, ps1, rfl, h1, r1, rfl⟩
    obtain ⟨rfl, rfl⟩ := (matchSeg_lit_iff _ _ _).mp h1
    rcases (matchSegs_cons_iff _ _ _ _).mp r1 with ⟨s2, ss2, p2, ps2, rfl, h2, r2, rfl⟩
    obtain ⟨a, f, hsd, hne, hf, rfl⟩ := (matchSeg_pkFmt_iff _ _ _ _).mp h2
    obtain ⟨rfl, rfl⟩ := (matchSegs_nil_iff _ _).mp r2
    exact ⟨s2, a, f, Or.inl rfl, hsd, hne, hf, rfl⟩
  · rcases (matchSegs_cons_iff _ _ _ _).mp h' with ⟨s1, ss1, p1, ps1, rfl, h1, r3, rfl⟩
    obtain ⟨rfl, rfl⟩ := (matchSeg_lit_iff _ _ _).mp h1
    rcases (matchSegs_cons_iff _ _ _ _).mp r3 with ⟨s2, ss2, p2, ps2, rfl, h2, r4, rfl⟩
    obtain ⟨a, f, hsd, hne, hf, rfl⟩ := (matchSeg_pkFmt_iff _ _ _ _).mp h2
    rcases (matchSegs_cons_iff _ _ _ _).mp r4 with ⟨s3, ss3, p3, ps3, rfl, h3, r5, rfl⟩
    obtain ⟨rfl, rfl⟩ := (matchSeg_lit_iff _ _ _).mp h3
    obtain ⟨rfl, rfl⟩ := (matchSegs_nil_iff _ _).mp r5
    exact ⟨s2, a, f, Or.inr rfl, hsd, hne, hf, rfl⟩

theorem match_api_root_fmt_inv (ss : List String) (ps : List Param)
    (h : matchRoute api_root_fmt ss = some ps) :
    ∃ s f, (ss = [s] ∨ ss = [s, ""]) ∧ splitDot s = ["", f] ∧
      isFmtStr f = true ∧ ps = [("format", PVal.str f)] := by
  rcases matchRoute_cases _ _ _ h with h' | h' <;> simp only [api_root_fmt] at h'
  · rcases (matchSegs_cons_iff _ _ _ _).mp h' with ⟨s1, ss1, p1, ps1, rfl, h1, r1, rfl⟩
    obtain ⟨f, hsd, hf, rfl⟩ := (matchSeg_fmtOnly_iff _ _ _).mp h1
    obtain ⟨rfl, rfl⟩ := (matchSegs_nil_iff _ _).mp r1
    exact ⟨s1, f, Or.inl rfl, hsd, hf, rfl⟩
  · rcases (matchSegs_cons_iff _ _ _ _).mp h' with ⟨s1, ss1, p1, ps1, rfl, h1, r2, rfl⟩
    obtain ⟨f, hsd, hf, rfl⟩ := (matchSeg_fmtOnly_iff _ _ _).mp h1
    rcases (matchSegs_cons_iff _ _ _ _).mp r2 with ⟨s2, ss2, p2, ps2, rfl, h2, r3, rfl⟩
    obtain ⟨rfl, rfl⟩ := (matchSeg_lit_iff _ _ _).mp h2
    obtain ⟨rfl, rfl⟩ := (matchSegs_nil_iff _ _).mp r3
    exact ⟨s1, f, Or.inr rfl, hsd, hf, rfl⟩

/-! ### First-match resolution: each pattern resolves to itself -/

theorem ne_empty_of_decimal (s : String) (n : Nat)
    (h : decimalNat? s = some n) : s ≠ "" := by
  intro he
  subst he
  rw [show decimalNat? "" = none from by decide] at h
  exact Option.noConfusion h

theorem splitDot_empty : splitDot "" = [""] := by decide

theorem resolve_choice_list (ss : List String) (ps : List Param)
    (h : matchRoute choice_list ss = some ps) :
    resolveEntry ss = some (choice_list, ps) := by
  obtain ⟨s, n, rfl, hn, rfl⟩ := match_choice_list_inv ss ps h
  simp [resolveEntry, urlpatterns, explicitRoutes, routerUrls,
        List.findSome?_cons, matchRoute, matchSegs, matchSeg, choice_list, hn]

theorem resolve_create_vote (ss : List String) (ps : List Param)
    (h : matchRoute create_vote ss = some ps) :
    resolveEntry ss = some (create_vote, ps) := by
  obtain ⟨s, t, n, m, rfl, hn, hm, rfl⟩ := match_create_vote_inv ss ps h
  have ht : t ≠ "" := ne_empty_of_decimal t m hm
  simp [resolveEntry, urlpatterns, explicitRoutes, routerUrls,
        List.findSome?_cons, matchRoute, matchSegs, matchSeg,
        choice_list, create_vote, hn, hm, ht]

theorem resolve_user_create (ss : List String) (ps : List Param)
    (h : matchRoute user_create ss = some ps) :
    resolveEntry ss = some (user_create, ps) := by
  obtain ⟨rfl, rfl⟩ := match_user_create_inv ss ps h
  decide

theorem resolve_login (ss : List String) (ps : List Param)
    (h : matchRoute login ss = some ps) :
    resolveEntry ss = some (login, ps) := by
  obtain ⟨rfl, rfl⟩ := match_login_inv ss ps h
  decide

theorem resolve_polls_list (ss : List String) (ps : List Param)
    (h : matchRoute polls_list ss = some ps) :
    resolveEntry ss = some (polls_list, ps) := by
  obtain ⟨rfl, rfl⟩ := match_polls_list_inv ss ps h
  decide

theorem resolve_api_root (ss : List String) (ps : List Param)
    (h : matchRoute api_root ss = some ps) :
    resolveEntry ss = some (api_root, ps) := by
  obtain ⟨rfl, rfl⟩ := match_api_root_inv ss ps h
  decide

theorem splitDot_ne_imp (s l : String) (parts : List String)
    (hs : splitDot s = parts) (hl : ¬ splitDot l = parts) : s ≠ l :=
  fun he => hl (he ▸ hs)

theorem resolve_polls_detail (ss : List String) (ps : List Param)
    (h : matchRoute polls_detail ss = some ps) :
    resolveEntry ss = some (polls_detail, ps) := by
  obtain ⟨s, rfl, hne, hsd, rfl⟩ := match_polls_detail_inv ss ps h
  have hp : splitDot "polls" = ["polls"] := by decide
  cases hd : decimalNat? s <;>
    simp [resolveEntry, urlpatterns, explicitRoutes, routerUrls,
          List.findSome?_cons, matchRoute, matchSegs, matchSeg,
          choice_list, create_vote, user_create, login, polls_list,
          polls_list_fmt, polls_detail, hd, hne, hsd, hp]

theorem resolve_polls_list_fmt (ss : List String) (ps : List Param)
    (h : matchRoute polls_list_fmt ss = some ps) :
    resolveEntry ss = some (polls_list_fmt, ps) := by
  obtain ⟨s, f, hss, hsd, hf, rfl⟩ := match_polls_list_fmt_inv ss ps h
  have h1 : s ≠ "polls" := splitDot_ne_imp s "polls" _ hsd
    (by rw [show splitDot "polls" = ["polls"] from by decide]; simp)
  have h2 : s ≠ "users" := splitDot_ne_imp s "users" _ hsd
    (by rw [show splitDot "users" = ["users"] from by decide]; simp)
  have h3 : s ≠ "login" := splitDot_ne_imp s "login" _ hsd
    (by rw [show splitDot "login" = ["login"] from by decide]; simp)
  rcases hss with rfl | rfl <;>
    simp [resolveEntry, urlpatterns, explicitRoutes, routerUrls,
          List.findSome?_cons, matchRoute, matchSegs, matchSeg,
          choice_list, create_vote, user_create, login, polls_list,
          polls_list_fmt, hsd, hf, h1, h2, h3]

theorem resolve_polls_detail_fmt (ss : List String) (ps : List Param)
    (h : matchRoute polls_detail_fmt ss = some ps) :
    resolveEntry ss = some (polls_detail_fmt, ps) := by
  obtain ⟨t, a, f, hss, hsd, hne, hf, rfl⟩ := match_polls_detail_fmt_inv ss ps h
  have hp : splitDot "polls" = ["polls"] := by decide
  have h0 : t ≠ "" := splitDot_ne_imp t "" _ hsd
    (by rw [splitDot_empty]; simp)
  rcases hss with rfl | rfl <;> cases hd : decimalNat? t <;>
    simp [resolveEntry, urlpatterns, explicitRoutes, routerUrls,
          List.findSome?_cons, matchRoute, matchSegs, matchSeg,
          choice_list, create_vote, user_create, login, polls_list,
          polls_list_fmt, polls_detail, polls_detail_fmt,
          hsd, hne, hf, h0, hd, hp]

theorem resolve_api_root_fmt (ss : List String) (ps : List Param)
    (h : matchRoute api_root_fmt ss = some ps) :
    resolveEntry ss = some (api_root_fmt, ps) := by
  obtain ⟨s, f, hss, hsd, hf, rfl⟩ := match_api_root_fmt_inv ss ps h
  have h0 : s ≠ "" := splitDot_ne_imp s "" _ hsd
    (by rw [splitDot_empty]; simp)
  have h1 : s ≠ "polls" := splitDot_ne_imp s "polls" _ hsd
    (by rw [show splitDot "polls" = ["polls"] from by decide]; simp)
  have h2 : s ≠ "users" := splitDot_ne_imp s "users" _ hsd
    (by rw [show splitDot "users" = ["users"] from by decide]; simp)
  have h3 : s ≠ "login" := splitDot_ne_imp s "login" _ hsd
    (by rw [show splitDot "login" = ["login"] from by decide]; simp)
  rcases hss with rfl | rfl <;>
    simp [resolveEntry, urlpatterns, explicitRoutes, routerUrls,
          List.findSome?_cons, matchRoute, matchSegs, matchSeg,
          choice_list, create_vote, user_create, login, polls_list,
          polls_list_fmt, polls_detail, polls_detail_fmt, api_root,
          api_root_fmt, hsd, hf, h0, h1, h2, h3]

/-- Every pattern in the table resolves to itself: the ten registered
patterns are pairwise non-overlapping, so whichever one matches a path
is also the first match in declaration order. -/
theorem resolveEntry_eq_of_match (e : RouteEntry) (he : e ∈ urlpatterns)
    (ss : List String) (ps : List Param) (h : matchRoute e ss = some ps) :
    resolveEntry ss = some (e, ps) := by
  simp only [urlpatterns, explicitRoutes, routerUrls, List.cons_append,
             List.nil_append, List.mem_cons, List.not_mem_nil, or_false] at he
  rcases he with rfl | rfl | rfl | rfl | rfl | rfl | rfl | rfl | rfl | rfl
  · exact resolve_choice_list ss ps h
  · exact resolve_create_vote ss ps h
  · exact resolve_user_create ss ps h
  · exact resolve_login ss ps h
  · exact resolve_polls_list ss ps h
  · exact resolve_polls_list_fmt ss ps h
  · exact resolve_polls_detail ss ps h
  · exact resolve_polls_detail_fmt ss ps h
  · exact resolve_api_root ss ps h
  · exact resolve_api_root_fmt ss ps h

/-- Parameters bound by integer-typed placeholders carry integer
values. -/
theorem int_typed_of_match (e : RouteEntry) (he : e ∈ urlpatterns)
    (ss : List String) (ps : List Param) (h : matchRoute e ss = some ps) :
    ∀ nm ∈ intNames e, ∃ n, (nm, PVal.int n) ∈ ps := by
  simp only [urlpatterns, explicitRoutes, routerUrls, List.cons_append,
             List.nil_append, List.mem_cons, List.not_mem_nil, or_false] at he
  rcases he with rfl | rfl | rfl | rfl | rfl | rfl | rfl | rfl | rfl | rfl
  · obtain ⟨s, n, -, -, rfl⟩ := match_choice_list_inv ss ps h
    intro nm hnm
    simp only [intNames, choice_list] at hnm
    simp at hnm
    subst hnm
    exact ⟨n, by simp⟩
  · obtain ⟨s, t, n, m, -, -, -, rfl⟩ := match_create_vote_inv ss ps h
    intro nm hnm
    simp only [intNames, create_vote] at hnm
    simp at hnm
    rcases hnm with rfl | rfl
    · exact ⟨n, by simp⟩
    · exact ⟨m, by simp⟩
  · intro nm hnm; simp [intNames, user_create] at hnm
  · intro nm hnm; simp [intNames, login] at hnm
  · intro nm hnm; simp [intNames, polls_list] at hnm
  · intro nm hnm; simp [intNames, polls_list_fmt] at hnm
  · intro nm hnm; simp [intNames, polls_detail] at hnm
  · intro nm hnm; simp [intNames, polls_detail_fmt] at hnm
  · intro nm hnm; simp [intNames, api_root] at hnm
  · intro nm hnm; simp [intNames, api_root_fmt] at hnm

/-- A matched explicit pattern forces a trailing slash on the path. -/
theorem explicit_match_trailing (e : RouteEntry) (he : e ∈ explicitRoutes)
    (ss : List String) (ps : List Param) (h : matchRoute e ss = some ps) :
    ss.getLast? = some "" := by
  simp only [explicitRoutes, List.mem_cons, List.not_mem_nil, or_false] at he
  rcases he with rfl | rfl | rfl | rfl
  · obtain ⟨s, n, rfl, -, -⟩ := match_choice_list_inv ss ps h
    simp [List.getLast?, List.getLast]
  · obtain ⟨s, t, n, m, rfl, -, -, -⟩ := match_create_vote_inv ss ps h
    simp [List.getLast?, List.getLast]
  · obtain ⟨rfl, -⟩ := match_user_create_inv ss ps h
    decide
  · obtain ⟨rfl, -⟩ := match_login_inv ss ps h
    decide


/-! ### The claims -/

/-- C1: for every registered route pattern and every path that matches
it syntactically (integer values in the integer-typed placeholder
segments), URL resolution selects that pattern's declared handler and
passes it the matched path parameters, and every integer-typed
placeholder is bound to an integer value.  Resolution in Django is
method-independent; method checking is stated separately (C2). -/
theorem c1_router_dispatches_matching_pattern (e : RouteEntry)
    (ss : List String) (ps : List Param)
    (he : e ∈ urlpatterns) (h : matchRoute e ss = some ps) :
    resolveSegs ss = some (e.handler, ps) ∧
      ∀ nm ∈ intNames e, ∃ n, (nm, PVal.int n) ∈ ps := by
  refine ⟨?_, int_typed_of_match e he ss ps h⟩
  simp only [resolveSegs]
  rw [resolveEntry_eq_of_match e he ss ps h]
  rfl

/-- C1 witness: the vote pattern at a concrete path. -/
theorem c1_witness :
    resolveSegs ["polls", "12", "choices", "34", "vote", ""] =
      some (Handler.createVote,
            [("pk", PVal.int 12), ("choice_pk", PVal.int 34)]) :=
  (c1_router_dispatches_matching_pattern create_vote
    ["polls", "12", "choices", "34", "vote", ""]
    [("pk", PVal.int 12), ("choice_pk", PVal.int 34)]
    (by decide) (by decide)).1

/-- C2: the routing decision is exactly one of three outcomes: not
found when no pattern matches the path, method not allowed when the
first matching pattern's view does not accept the request method, and
a dispatch otherwise; the decision is a single pure lookup with no
retry. -/
theorem c2_failure_taxonomy (m : Method) (ss : List String) :
    (route m ss = Outcome.routeNotFound ↔ resolveEntry ss = none) ∧
    (route m ss = Outcome.methodNotAllowed ↔
      ∃ e ps, resolveEntry ss = some (e, ps) ∧ m ∉ e.methods) ∧
    ∀ hdl ps, route m ss = Outcome.dispatch hdl ps ↔
      ∃ e, resolveEntry ss = some (e, ps) ∧ hdl = e.handler ∧
        m ∈ e.methods := by
  cases hr : resolveEntry ss with
  | none => simp [route, hr]
  | some r =>
      obtain ⟨e, ps'⟩ := r
      by_cases hm : m ∈ e.methods <;>
        simp [route, hr, hm, eq_comm, and_comm]
      intro hdl ps
      constructor
      · rintro ⟨rfl, rfl⟩
        exact ⟨e, ⟨rfl, rfl⟩, rfl, hm⟩
      · rintro ⟨e1, ⟨rfl, rfl⟩, rfl, -⟩
        exact ⟨rfl, rfl⟩

/-- C3: the router tries patterns in declaration order and dispatches
to the first match; the DefaultRouter routes are appended after the
explicitly declared routes, and a path matched by an explicit route
always resolves to that explicit route's handler. -/
theorem c3_order_and_precedence :
    urlpatterns = explicitRoutes ++ routerUrls ∧
    (∀ ss, resolveEntry ss =
      urlpatterns.findSome?
        (fun e => (matchRoute e ss).map (fun ps => (e, ps)))) ∧
    ∀ e ∈ explicitRoutes, ∀ ss ps, matchRoute e ss = some ps →
      resolveSegs ss = some (e.handler, ps) := by
  refine ⟨rfl, fun ss => rfl, fun e he ss ps h => ?_⟩
  have hm : e ∈ urlpatterns := by
    simp only [urlpatterns, List.mem_append]
    exact Or.inl he
  simp only [resolveSegs]
  rw [resolveEntry_eq_of_match e hm ss ps h]
  rfl

/-- C3 witness: the explicit user-creation route at its concrete path. -/
theorem c3_witness :
    resolveSegs ["users", ""] = some (Handler.userCreate, []) :=
  c3_order_and_precedence.2.2 user_create (by decide) ["users", ""] []
    (by decide)

/-- C4 counterexample: the claim says GET /polls/abc/ matches no
pattern and the routing outcome is not-found; in this variant the
DefaultRouter detail route (pk regex accepts any non-empty dot-free
segment, not integers only) matches it and dispatches, with the raw
string as the pk parameter. -/
theorem c4_counterexample :
    routePath Method.GET "/polls/abc/" =
      Outcome.dispatch Handler.pollViewSet [("pk", PVal.str "abc")] ∧
    routePath Method.GET "/polls/abc/" ≠ Outcome.routeNotFound := by decide

/-- C4 (amended): a non-integer segment where an integer is expected
fails every integer-typed pattern — the choice-list pattern at its
poll-id slot, and the vote pattern at its poll-id slot and at its
choice-id slot (for any poll-id segment, integer or not) — but the
generated poll-detail pattern accepts any non-empty dot-free segment,
so GET /polls/abc/ dispatches to the poll viewset with pk "abc"; the
not-found for such an id is produced by the handler, not the router. -/
theorem c4_amended (s : String) (hs : decimalNat? s = none) :
    matchRoute choice_list ["polls", s, "choices", ""] = none ∧
    (∀ t, matchRoute create_vote ["polls", s, "choices", t, "vote", ""]
      = none) ∧
    (∀ t, matchRoute create_vote ["polls", t, "choices", s, "vote", ""]
      = none) ∧
    routePath Method.GET "/polls/abc/" =
      Outcome.dispatch Handler.pollViewSet [("pk", PVal.str "abc")] := by
  refine ⟨?_, fun t => ?_, fun t => ?_, by decide⟩
  · simp [matchRoute, choice_list, matchSegs, matchSeg, hs]
  · simp [matchRoute, create_vote, matchSegs, matchSeg, hs]
  · cases hd : decimalNat? t <;>
      simp [matchRoute, create_vote, matchSegs, matchSeg, hs, hd]

/-- C4 witness: the amended claim at concrete non-integer ids, in the
poll-id slot and in the choice-id slot. -/
theorem c4_amended_witness :
    matchRoute choice_list ["polls", "abc", "choices", ""] = none ∧
    matchRoute create_vote ["polls", "3", "choices", "xyz", "vote", ""]
      = none :=
  ⟨(c4_amended "abc" (by decide)).1,
   (c4_amended "xyz" (by decide)).2.2.1 "3"⟩

/-- C5 counterexample: the claim says the detail path accepts POST;
the DefaultRouter detail route maps only GET, PUT, PATCH and DELETE,
so POST /polls/9/ is method-not-allowed. -/
theorem c5_counterexample :
    routePath Method.POST "/polls/9/" = Outcome.methodNotAllowed := by decide

/-- C5 (amended): the full-CRUD registration gives the detail path
GET, PUT, PATCH and DELETE (pk bound as the raw segment string);
POST on the detail path is method-not-allowed — creation is POST on
the collection path. -/
theorem c5_amended :
    routePath Method.GET "/polls/9/" =
      Outcome.dispatch Handler.pollViewSet [("pk", PVal.str "9")] ∧
    routePath Method.PUT "/polls/9/" =
      Outcome.dispatch Handler.pollViewSet [("pk", PVal.str "9")] ∧
    routePath Method.PATCH "/polls/9/" =
      Outcome.dispatch Handler.pollViewSet [("pk", PVal.str "9")] ∧
    routePath Method.DELETE "/polls/9/" =
      Outcome.dispatch Handler.pollViewSet [("pk", PVal.str "9")] ∧
    routePath Method.POST "/polls/9/" = Outcome.methodNotAllowed ∧
    routePath Method.POST "/polls/" =
      Outcome.dispatch Handler.pollViewSet [] := by decide

/-- C6: GET /polls/7/choices/ dispatches to the choice-listing handler
with poll id 7, and POST /polls/3/choices/5/vote/ dispatches to the
vote-creation handler with poll id 3 and choice id 5 (the source names
the parameters pk and choice_pk). -/
theorem c6_concrete_dispatches :
    routePath Method.GET "/polls/7/choices/" =
      Outcome.dispatch Handler.choiceList [("pk", PVal.int 7)] ∧
    routePath Method.POST "/polls/3/choices/5/vote/" =
      Outcome.dispatch Handler.createVote
        [("pk", PVal.int 3), ("choice_pk", PVal.int 5)] := by decide

/-- C7: routing is stateless and deterministic: in any batch of
requests, the decision for each request is the pure function of its
own method and path, unaffected by the requests routed before or
after it; hence two requests with the same method and path (such as
POST /users/ then POST /login/ in either order) always receive
identical decisions. -/
theorem c7_stateless_independence (xs ys : List Request) (r : Request) :
    processAll (xs ++ r :: ys) =
      processAll xs ++ routePath r.method r.path :: processAll ys := by
  simp [processAll]

/-- C8: the vote pattern matches every pair of integers independently
(the second and fourth segments being any decimal representations of p
and c); the routing layer performs no check that choice c belongs to
poll p — it always dispatches both ids to the vote handler. -/
theorem c8_vote_any_integer_pair (sp sc : String) (p c : Nat)
    (hp : decimalNat? sp = some p) (hc : decimalNat? sc = some c) :
    route Method.POST ["polls", sp, "choices", sc, "vote", ""] =
      Outcome.dispatch Handler.createVote
        [("pk", PVal.int p), ("choice_pk", PVal.int c)] := by
  have h : matchRoute create_vote ["polls", sp, "choices", sc, "vote", ""]
      = some [("pk", PVal.int p), ("choice_pk", PVal.int c)] := by
    simp [matchRoute, create_vote, matchSegs, matchSeg, hp, hc]
  have hr := resolveEntry_eq_of_match create_vote (by decide) _ _ h
  simp [route, hr, create_vote]

/-- C8 witness: a concrete integer pair. -/
theorem c8_witness :
    route Method.POST ["polls", "3", "choices", "5", "vote", ""] =
      Outcome.dispatch Handler.createVote
        [("pk", PVal.int 3), ("choice_pk", PVal.int 5)] :=
  c8_vote_any_integer_pair "3" "5" 3 5 (by decide) (by decide)

/-- C9: the DefaultRouter registration adds routes beyond the spec's
listed HTTP surface: an api-root GET route at the empty path and
format-suffix variants of the poll routes, so GET on the root path
dispatches rather than failing with not-found. -/
theorem c9_default_router_extra_routes :
    api_root ∈ urlpatterns ∧ api_root.methods = [Method.GET] ∧
    polls_list_fmt ∈ urlpatterns ∧ polls_detail_fmt ∈ urlpatterns ∧
    routePath Method.GET "/" = Outcome.dispatch Handler.apiRoot [] ∧
    routePath Method.GET "/polls.json" =
      Outcome.dispatch Handler.pollViewSet [("format", PVal.str "json")] ∧
    routePath Method.GET "/polls/5.json" =
      Outcome.dispatch Handler.pollViewSet
        [("pk", PVal.str "5"), ("format", PVal.str "json")] ∧
    routePath Method.GET "/" ≠ Outcome.routeNotFound := by decide

/-- C10: every explicitly declared pattern ends with a trailing slash,
so a path without a final empty segment (no trailing slash) matches no
explicitly declared pattern. -/
theorem c10_trailing_slash_required (e : RouteEntry)
    (he : e ∈ explicitRoutes) :
    e.segs.getLast? = some (Seg.lit "") ∧
    ∀ ss, ss.getLast? ≠ some "" → matchRoute e ss = none := by
  refine ⟨?_, fun ss hlast => ?_⟩
  · have he' := he
    simp only [explicitRoutes, List.mem_cons, List.not_mem_nil,
               or_false] at he'
    rcases he' with rfl | rfl | rfl | rfl <;> decide
  · cases hmr : matchRoute e ss with
    | none => rfl
    | some ps => exact absurd (explicit_match_trailing e he ss ps hmr) hlast

/-- C10 witness: the user-creation route without the trailing slash. -/
theorem c10_witness :
    user_create.segs.getLast? = some (Seg.lit "") ∧
    matchRoute user_create ["users"] = none :=
  ⟨(c10_trailing_slash_required user_create (by decide)).1,
   (c10_trailing_slash_required user_create (by decide)).2 ["users"]
     (by decide)⟩
